import Mathlib

/-!
Verification development for the weather query handler in
`src/modules/weather.py` (class `WeatherModule` and the module-level
function `parse_weather_input`).

The Python string primitives used by the module (`str.lower`, `str.strip`,
`str.title`, `str.replace`, the `in` substring test, and the single regex
`re.search(r"in ([a-zA-Z\s]+)", s)`) are embedded as executable functions
on `List Char`.  The two HTTP requests are embedded by passing their
outcomes (`Except` of a transport error message, or parsed JSON data) as
inputs, and every request actually issued is recorded in a `NetworkCall`
list.  The two external collaborators that live outside this repository,
the LLM-based `extract_location` and `modules.utils.weather_description_fetcher`,
are passed as parameters (the latter also has a spec-modelled instance below).
-/

/-- Python `str.lower` applied characterwise, as the source does on ASCII text. -/
def toLowerL (l : List Char) : List Char := l.map Char.toLower

/-- The whitespace characters stripped by Python `str.strip()`. -/
def isPySpace (c : Char) : Bool :=
  c == ' ' || c == '\t' || c == '\n' || c == '\x0d' || c == '\x0b' || c == '\x0c'

/-- Python `str.strip()`: drop whitespace from both ends. -/
def stripL (l : List Char) : List Char :=
  ((l.dropWhile isPySpace).reverse.dropWhile isPySpace).reverse

/-- Helper for `titleL`; the flag records whether the previous character was a letter. -/
def titleAux : Bool → List Char → List Char
  | _, [] => []
  | prevAlpha, c :: cs =>
    if c.isAlpha then
      (if prevAlpha then c.toLower else c.toUpper) :: titleAux true cs
    else
      c :: titleAux false cs

/-- Python `str.title()` on ASCII text: the first letter of every maximal
letter run is uppercased and the rest are lowercased. -/
def titleL (l : List Char) : List Char := titleAux false l

/-- Prefix test on character lists. -/
def isPrefL : List Char → List Char → Bool
  | [], _ => true
  | _ :: _, [] => false
  | a :: as, b :: bs => a == b && isPrefL as bs

/-- Python substring containment (the `pat in s` test). -/
def containsL (pat : List Char) : List Char → Bool
  | [] => isPrefL pat []
  | c :: cs => isPrefL pat (c :: cs) || containsL pat cs

/-- Fueled worker for `replaceAllL`; the fuel starts at the length of the
list, which suffices because every step consumes at least one character. -/
def replaceGo (pat : List Char) : Nat → List Char → List Char
  | 0, l => l
  | _ + 1, [] => []
  | fuel + 1, c :: cs =>
    if isPrefL pat (c :: cs) then replaceGo pat fuel ((c :: cs).drop pat.length)
    else c :: replaceGo pat fuel cs

/-- Python `s.replace(pat, "")`: remove all occurrences, scanning left to
right without overlap. -/
def replaceAllL (pat l : List Char) : List Char := replaceGo pat l.length l

/-- The character class `[a-zA-Z\s]` of the location regex. -/
def classChar (c : Char) : Bool := c.isAlpha || c.isWhitespace

/-- Greedy run of class characters (the `+` of the capture group). -/
def takeClassL : List Char → List Char
  | [] => []
  | c :: cs => if classChar c then c :: takeClassL cs else []

/-- Embedding of `re.search(r"in ([a-zA-Z\s]+)", s)`: the leftmost position
where the literal characters `i`, `n`, a space, and at least one class
character occur; the captured group is the maximal class-character run. -/
def reSearchInL : List Char → Option (List Char)
  | [] => none
  | 'i' :: 'n' :: ' ' :: d :: ds =>
    if classChar d then some (d :: takeClassL ds)
    else reSearchInL ('n' :: ' ' :: d :: ds)
  | _ :: cs => reSearchInL cs

/-- Sequential keyword removal: `for keyword in [...]: location = location.replace(keyword, "")`. -/
def removeKeywords (keywords : List String) (l : List Char) : List Char :=
  keywords.foldl (fun acc k => replaceAllL k.data acc) l

/-- The keyword list of the fallback branch of `parse_weather_input`. -/
def parse_keywords : List String :=
  ["weather", "forecast", "tomorrow", "today", "is it", "will it",
   "rain", "raining", "sunny", "snow", "cold", "hot", "outside", "be", "in", "the"]

/-- Embedding of the module-level `parse_weather_input`.  The input is
lowercased; the tomorrow flag tests the two substrings; the location is the
raw captured group when the regex matches, and only in the fallback branch
is the keyword stripping plus `strip().title()` applied (the stripping code
is nested inside the `else` branch in the source). -/
def parse_weather_input (user_input : String) : String × Bool :=
  let low := toLowerL user_input.data
  let is_tomorrow := containsL "tomorrow".data low || containsL "next day".data low
  let location :=
    match reSearchInL low with
    | some g => String.mk g
    | none => String.mk (titleL (stripL (removeKeywords parse_keywords low)))
  (location, is_tomorrow)

/-- The dictionary local to the static method `WeatherModule.weather_description_fetcher`. -/
def WeatherModule.weather_conditions : List (Int × String) :=
  [(0, "Clear sky"), (1, "Mainly clear"), (2, "Partly cloudy"), (3, "Overcast"),
   (45, "Foggy"), (48, "Depositing rime fog"), (51, "Light drizzle"),
   (53, "Moderate drizzle"), (55, "Dense drizzle"), (61, "Slight rain"),
   (63, "Moderate rain"), (65, "Heavy rain"), (71, "Slight snow"),
   (73, "Moderate snow"), (75, "Heavy snow"), (80, "Rain showers"),
   (81, "Moderate rain showers"), (82, "Heavy rain showers"),
   (95, "Thunderstorm"), (96, "Thunderstorm with hail")]

/-- The static method `WeatherModule.weather_description_fetcher`:
`weather_conditions.get(code, "Unknown conditions")`. -/
def WeatherModule.weather_description_fetcher (code : Int) : String :=
  match WeatherModule.weather_conditions.lookup code with
  | some d => d
  | none => "Unknown conditions"

/-- Modelled from the spec: the function `weather_description_fetcher` imported
from `modules.utils` is code of this repository that is not under `src`.  The
spec states that the condition description is always resolved via the
ConditionCodeTable and that unknown numeric codes render as
"Unknown conditions", so the import is modelled as that table lookup. -/
def utils_weather_description_fetcher (code : Int) : String :=
  WeatherModule.weather_description_fetcher code

/-- One entry of the geocoding results array. -/
structure GeoEntry where
  latitude : Rat
  longitude : Rat
  name : String

/-- Parsed body of the geocoding response; `results` is `none` when the key
is absent. -/
structure GeoData where
  results : Option (List GeoEntry)

/-- The `daily` block of a forecast response. -/
structure DailyData where
  temperature_2m_max : List Int
  temperature_2m_min : List Int
  weathercode : List Int

/-- The `current_weather` block of a forecast response; `weathercode` is
optional because the source reads it with `.get("weathercode", -1)`. -/
structure CurrentWeatherData where
  temperature : Int
  windspeed : Int
  weathercode : Option Int

/-- Parsed body of a forecast response. -/
structure WeatherData where
  daily : Option DailyData
  current_weather : Option CurrentWeatherData

/-- One HTTP request issued by `fetch_weather`. -/
inductive NetworkCall where
  | geocode (location : String)
  | forecast (latitude longitude : Rat) (is_tomorrow : Bool)

/-- The `f"Sorry, I couldn't find weather details for '{location}'. ..."` message. -/
def location_not_found_message (location : String) : String :=
  "Sorry, I couldn\x27t find weather details for \x27" ++ location ++
    "\x27. Please try the same or another location."

/-- The `f"An error occurred while fetching weather data: {e}"` message. -/
def request_error_message (e : String) : String :=
  "An error occurred while fetching weather data: " ++ e

/-- The tomorrow-forecast message template of `fetch_weather`. -/
def tomorrow_forecast_message (location_name description : String)
    (temp_max temp_min : Int) : String :=
  "The weather in " ++ location_name ++ " tomorrow will be " ++ description ++
    ", with a high of " ++ toString temp_max ++ "°C and a low of " ++
    toString temp_min ++ "°C."

/-- The message returned when parsing the `daily` block fails. -/
def tomorrow_parse_error_message : String :=
  "Sorry, I couldn\x27t fetch tomorrow’s forecast right now."

/-- The current-conditions message template of `fetch_weather`. -/
def current_weather_message (location_name weather_description : String)
    (temperature : Int) (temperature_description : String) (windspeed : Int) : String :=
  "The current weather in " ++ location_name ++ " is " ++ weather_description ++
    " with a temperature of " ++ toString temperature ++ "°C (" ++
    temperature_description ++ ") and a windspeed of " ++ toString windspeed ++ " km/h."

/-- The message returned when the `current_weather` block is absent. -/
def no_current_weather_message : String :=
  "Sorry, I couldn\x27t fetch the weather details at this time."

/-- The clarification message of `handle_weather` for an empty sanitized location. -/
def clarification_message : String :=
  "Sorry, I couldn\x27t identify the location. Could you rephrase your query?"

/-- The generic message of the `except` block around the `fetch_weather` call. -/
def generic_error_message : String :=
  "An error occurred while fetching the weather. Please try again later."

/-- Index-1 extraction from the `daily` arrays, `none` when any array is too
short (the `except` of the inner `try` in the tomorrow branch). -/
def daily_index1 (daily : DailyData) : Option (Int × Int × Int) :=
  match daily.weathercode[1]?, daily.temperature_2m_max[1]?, daily.temperature_2m_min[1]? with
  | some weather_code, some temp_max, some temp_min => some (weather_code, temp_max, temp_min)
  | _, _, _ => none

/-- Embedding of `WeatherModule.fetch_weather`.  The first parameter is the
`weather_description_fetcher` imported from `modules.utils`: inside the
method body that bare name resolves to the module-level import, not to the
static method of the class, because Python does not place the class scope on
the name-lookup path of methods.  The outcomes of the two `requests.get`
calls are inputs (`Except.error` is a raised `RequestException` carrying the
interpolated exception text), and the second component records the requests
issued. -/
def fetch_weather (weather_description_fetcher : Int → String)
    (location : String) (is_tomorrow : Bool)
    (geocode_outcome : Except String GeoData)
    (weather_outcome : Except String WeatherData) : String × List NetworkCall :=
  match geocode_outcome with
  | .error e => (request_error_message e, [NetworkCall.geocode location])
  | .ok geocode_data =>
    match geocode_data.results with
    | none => (location_not_found_message location, [NetworkCall.geocode location])
    | some [] => (location_not_found_message location, [NetworkCall.geocode location])
    | some (first :: _) =>
      let calls := [NetworkCall.geocode location,
                    NetworkCall.forecast first.latitude first.longitude is_tomorrow]
      match weather_outcome with
      | .error e => (request_error_message e, calls)
      | .ok weather_data =>
        if is_tomorrow then
          match weather_data.daily with
          | none => (tomorrow_parse_error_message, calls)
          | some daily =>
            match daily_index1 daily with
            | none => (tomorrow_parse_error_message, calls)
            | some (weather_code, temp_max, temp_min) =>
              let description := weather_description_fetcher weather_code
              (tomorrow_forecast_message first.name description temp_max temp_min, calls)
        else
          match weather_data.current_weather with
          | none => (no_current_weather_message, calls)
          | some current_weather =>
            let temperature := current_weather.temperature
            let windspeed := current_weather.windspeed
            let weather_code := current_weather.weathercode.getD (-1)
            let weather_description := weather_description_fetcher weather_code
            let temperature_description :=
              if temperature > 30 then "hot"
              else if temperature < 15 then "cold" else "moderate"
            (current_weather_message first.name weather_description temperature
              temperature_description windspeed, calls)

/-- The sanitization step of `handle_weather` applied to the raw location
returned by `extract_location`: lowercase, sequential keyword removal,
`strip()`, `title()`. -/
def handle_keywords : List String :=
  ["weather", "forecast", "tomorrow", "today", "is it", "will it", "rain",
   "sunny", "in", "be", "outside", "what", "is", "the", "of"]

/-- Steps 3 of `handle_weather`: clean up the extracted location. -/
def sanitize_location (raw_location : String) : String :=
  String.mk (titleL (stripL (removeKeywords handle_keywords (toLowerL raw_location.data))))

/-- Spec-side restatement of the LocationSanitizer, written from the spec
sentence: lowercase the string, remove every occurrence (anywhere, not just
whole-word) of each token of the fixed stoplist in order, trim whitespace,
title-case.  It is compared with `sanitize_location` taken from the source. -/
def spec_sanitizer_stoplist : List String :=
  ["weather", "forecast", "tomorrow", "today", "is it", "will it", "rain",
   "sunny", "in", "be", "outside", "what", "is", "the", "of"]

/-- Spec-side LocationSanitizer pipeline. -/
def sanitizeSpec (raw_location : String) : String :=
  String.mk (titleL (stripL (removeKeywords spec_sanitizer_stoplist (toLowerL raw_location.data))))

/-- Embedding of `WeatherModule.handle_weather`.  The outcome of the external
`extract_location(user_input, self.llm)` call is an input; it is made
*outside* the `try` block of the source, so a raised exception there makes
the whole embedded function return `Except.error`.  The `fetch` parameter is
the outcome of the guarded `self.fetch_weather(location, is_tomorrow)` call:
a raised exception there is caught and converted to the generic message. -/
def handle_weather (extract_location_outcome : Except String String)
    (fetch : String → Bool → Except String String × List NetworkCall)
    (user_input : String) : Except String (String × List NetworkCall) :=
  let is_tomorrow := (parse_weather_input user_input).2
  match extract_location_outcome with
  | .error e => .error e
  | .ok raw_location =>
    let location := sanitize_location raw_location
    if location = "" then
      .ok (clarification_message, [])
    else
      match fetch location is_tomorrow with
      | (.ok response, calls) => .ok (response, calls)
      | (.error _, calls) => .ok (generic_error_message, calls)

/-- The outcome of calling the embedded `fetch_weather` itself: on the JSON
shapes modelled here the method raises nothing, so the outcome is always
`Except.ok` of the returned message. -/
def fetch_weather_outcome (weather_description_fetcher : Int → String)
    (geocode_outcome : Except String GeoData)
    (weather_outcome : Except String WeatherData)
    (location : String) (is_tomorrow : Bool) :
    Except String String × List NetworkCall :=
  (Except.ok (fetch_weather weather_description_fetcher location is_tomorrow
      geocode_outcome weather_outcome).1,
   (fetch_weather weather_description_fetcher location is_tomorrow
      geocode_outcome weather_outcome).2)

/-- `handle_weather` composed with the real `fetch_weather`. -/
def handle_weather_run (weather_description_fetcher : Int → String)
    (extract_location_outcome : Except String String)
    (geocode_outcome : Except String GeoData)
    (weather_outcome : Except String WeatherData)
    (user_input : String) : Except String (String × List NetworkCall) :=
  handle_weather extract_location_outcome
    (fetch_weather_outcome weather_description_fetcher geocode_outcome weather_outcome)
    user_input

/-- Substring-occurrence predicate used to state containment claims. -/
def ContainsSub (pat s : String) : Prop :=
  ∃ a b, s.data = a ++ (pat.data ++ b)

/-- The lowercased view of a string, as computed by the source. -/
def lowered (s : String) : String := String.mk (toLowerL s.data)

theorem isPrefL_iff (p : List Char) : ∀ l, isPrefL p l = true ↔ ∃ t, l = p ++ t := by
  induction p with
  | nil =>
    intro l
    constructor
    · intro _
      exact ⟨l, rfl⟩
    · intro _
      rfl
  | cons a as ih =>
    intro l
    cases l with
    | nil =>
      constructor
      · intro h
        exact Bool.noConfusion h
      · rintro ⟨t, ht⟩
        exact List.noConfusion ht
    | cons b bs =>
      simp only [isPrefL, Bool.and_eq_true, beq_iff_eq, ih bs, List.cons_append]
      constructor
      · rintro ⟨rfl, t, rfl⟩
        exact ⟨t, rfl⟩
      · rintro ⟨t, h⟩
        injection h with h1 h2
        exact ⟨h1.symm, t, h2⟩

theorem containsL_iff (p : List Char) : ∀ l, containsL p l = true ↔ ∃ a b, l = a ++ (p ++ b) := by
  intro l
  induction l with
  | nil =>
    constructor
    · intro h
      obtain ⟨t, ht⟩ := (isPrefL_iff p []).mp h
      obtain ⟨hp, -⟩ := List.append_eq_nil.mp ht.symm
      exact ⟨[], [], by simp [hp]⟩
    · rintro ⟨a, b, h⟩
      obtain ⟨ha, hpb⟩ := List.append_eq_nil.mp h.symm
      obtain ⟨hp, hb⟩ := List.append_eq_nil.mp hpb
      exact (isPrefL_iff p []).mpr ⟨[], by simp [hp]⟩
  | cons c cs ih =>
    simp only [containsL, Bool.or_eq_true, isPrefL_iff, ih]
    constructor
    · rintro (⟨t, ht⟩ | ⟨a, b, hab⟩)
      · exact ⟨[], t, by simpa using ht⟩
      · exact ⟨c :: a, b, by simp [hab]⟩
    · rintro ⟨a, b, hab⟩
      cases a with
      | nil =>
        left
        exact ⟨b, by simpa using hab⟩
      | cons x xs =>
        right
        rw [List.cons_append] at hab
        injection hab with h1 h2
        exact ⟨xs, b, h2⟩

theorem lookup_eq_none_of_key_not_mem (code : Int) :
    ∀ l : List (Int × String), code ∉ l.map Prod.fst → l.lookup code = none := by
  intro l
  induction l with
  | nil =>
    intro _
    rfl
  | cons p t ih =>
    intro h
    obtain ⟨k, v⟩ := p
    simp only [List.map_cons, List.mem_cons] at h
    push_neg at h
    have hk : (code == k) = false := beq_eq_false_iff_ne.mpr h.1
    simp only [List.lookup, hk]
    exact ih h.2

theorem lookup_eq_some_of_mem_of_nodup (code : Int) (desc : String) :
    ∀ l : List (Int × String), (l.map Prod.fst).Nodup → (code, desc) ∈ l →
      l.lookup code = some desc := by
  intro l
  induction l with
  | nil =>
    intro _ hm
    exact absurd hm (List.not_mem_nil _)
  | cons p t ih =>
    intro hnd hm
    obtain ⟨k, v⟩ := p
    simp only [List.map_cons, List.nodup_cons] at hnd
    rcases List.mem_cons.mp hm with he | ht
    · have h1 : code = k := congrArg Prod.fst he
      have h2 : desc = v := congrArg Prod.snd he
      subst h1
      subst h2
      simp [List.lookup]
    · have hk : code ≠ k := by
        rintro rfl
        exact hnd.1 (List.mem_map.mpr ⟨(code, desc), ht, rfl⟩)
      have hbk : (code == k) = false := beq_eq_false_iff_ne.mpr hk
      simp only [List.lookup, hbk]
      exact ih hnd.2 ht

/-- C7: for every integer code in the condition table,
`WeatherModule.weather_description_fetcher` returns exactly the mapped
description string, and for every code not in the table it returns
"Unknown conditions". -/
theorem c7_condition_table :
    (∀ (code : Int) (desc : String), (code, desc) ∈ WeatherModule.weather_conditions →
      WeatherModule.weather_description_fetcher code = desc) ∧
    (∀ code : Int, code ∉ WeatherModule.weather_conditions.map Prod.fst →
      WeatherModule.weather_description_fetcher code = "Unknown conditions") := by
  constructor
  · intro code desc h
    have hs := lookup_eq_some_of_mem_of_nodup code desc
      WeatherModule.weather_conditions (by decide) h
    simp only [WeatherModule.weather_description_fetcher, hs]
  · intro code h
    have hn := lookup_eq_none_of_key_not_mem code WeatherModule.weather_conditions h
    simp only [WeatherModule.weather_description_fetcher, hn]

theorem c7_condition_table_witness :
    WeatherModule.weather_description_fetcher 61 = "Slight rain" ∧
    WeatherModule.weather_description_fetcher 999 = "Unknown conditions" :=
  ⟨c7_condition_table.1 61 "Slight rain" (by decide),
   c7_condition_table.2 999 (by decide)⟩

/-- C8: the `is_tomorrow` flag returned by `parse_weather_input` is true if
and only if the lowercased text contains "tomorrow" or "next day". -/
theorem c8_is_tomorrow_iff (s : String) :
    ((parse_weather_input s).2 = true) ↔
      (ContainsSub "tomorrow" (lowered s) ∨ ContainsSub "next day" (lowered s)) := by
  have hdef : (parse_weather_input s).2 =
      (containsL "tomorrow".data (toLowerL s.data) ||
       containsL "next day".data (toLowerL s.data)) := rfl
  rw [hdef]
  simp only [Bool.or_eq_true]
  constructor
  · rintro (h | h)
    · exact Or.inl ((containsL_iff _ _).mp h)
    · exact Or.inr ((containsL_iff _ _).mp h)
  · rintro (h | h)
    · exact Or.inl ((containsL_iff _ _).mpr h)
    · exact Or.inr ((containsL_iff _ _).mpr h)

/-- C5: the sanitization step of `handle_weather` lowercases the extractor
output, removes every occurrence (anywhere in the string, not just whole
words) of each stoplist token in order, trims whitespace and title-cases
(this is the spec-side pipeline `sanitizeSpec`); in particular sanitizing
"What is the weather in Pune" yields "Pune". -/
theorem c5_sanitization :
    (∀ raw_location, sanitize_location raw_location = sanitizeSpec raw_location) ∧
    sanitize_location "What is the weather in Pune" = "Pune" :=
  ⟨fun _ => rfl, rfl⟩

/-- C4: for the input "Will it rain in Pune tomorrow?", with the extractor
returning "Pune", the geocoder returning the single result
(18.5, 73.8, "Pune") and daily arrays holding max 31, min 22 and code 61 at
index 1 (index 0 holds different values), `handle_weather` produces exactly
the claimed sentence, selecting index 1 of each daily array. -/
theorem c4_end_to_end_tomorrow :
    handle_weather_run utils_weather_description_fetcher (Except.ok "Pune")
      (Except.ok ⟨some [⟨18.5, 73.8, "Pune"⟩]⟩)
      (Except.ok ⟨some ⟨[30, 31], [21, 22], [0, 61]⟩, none⟩)
      "Will it rain in Pune tomorrow?" =
    Except.ok
      ("The weather in Pune tomorrow will be Slight rain, with a high of 31°C and a low of 22°C.",
       [NetworkCall.geocode "Pune", NetworkCall.forecast 18.5 73.8 true]) := rfl

/-- C1 counterexample: an exception raised by the external `extract_location`
call escapes `handle_weather` as a raw error rather than being converted to
the generic "an error occurred" message, because that call sits outside the
`try` block of the source. -/
theorem c1_counterexample :
    handle_weather (Except.error "extractor failure")
      (fun _ _ => (Except.ok "unused", []))
      "Will it rain in Pune tomorrow?" = Except.error "extractor failure" := rfl

/-- C1 (amended): whenever `extract_location` returns normally,
`handle_weather` returns a plain string for every fetch outcome; an
exception raised by the guarded `fetch_weather` call is caught and converted
to the generic message; but an exception raised by `extract_location` itself
is not caught and propagates to the caller. -/
theorem c1_amended_exception_boundary
    (raw_location user_input : String)
    (fetch : String → Bool → Except String String × List NetworkCall) :
    (∃ out, handle_weather (Except.ok raw_location) fetch user_input = Except.ok out) ∧
    (∀ e calls, sanitize_location raw_location ≠ "" →
      fetch (sanitize_location raw_location) (parse_weather_input user_input).2 =
        (Except.error e, calls) →
      handle_weather (Except.ok raw_location) fetch user_input =
        Except.ok (generic_error_message, calls)) ∧
    (∀ e, handle_weather (Except.error e) fetch user_input = Except.error e) := by
  refine ⟨?_, ?_, fun e => rfl⟩
  · by_cases hl : sanitize_location raw_location = ""
    · exact ⟨(clarification_message, []), by simp [handle_weather, hl]⟩
    · rcases hfr : fetch (sanitize_location raw_location) (parse_weather_input user_input).2
        with ⟨res, calls⟩
      cases res with
      | ok r => exact ⟨(r, calls), by simp [handle_weather, hl, hfr]⟩
      | error e => exact ⟨(generic_error_message, calls), by simp [handle_weather, hl, hfr]⟩
  · intro e calls hl hfr
    simp [handle_weather, hl, hfr]

theorem c1_amended_exception_boundary_witness :
    handle_weather (Except.ok "Pune")
      (fun _ _ => (Except.error "boom", [NetworkCall.geocode "Pune"])) "hi" =
      Except.ok (generic_error_message, [NetworkCall.geocode "Pune"]) :=
  (c1_amended_exception_boundary "Pune" "hi"
      (fun _ _ => (Except.error "boom", [NetworkCall.geocode "Pune"]))).2.1
    "boom" [NetworkCall.geocode "Pune"] (by decide) rfl

/-- C2 counterexample: on the input "in Pune" the regex captures the group
"pune", and `parse_weather_input` returns it verbatim, which differs from
the trimmed title-cased form "Pune" the claim requires. -/
theorem c2_counterexample :
    reSearchInL (toLowerL "in Pune".data) = some "pune".data ∧
    (parse_weather_input "in Pune").1 = "pune" ∧
    String.mk (titleL (stripL "pune".data)) = "Pune" ∧
    ("pune" : String) ≠ "Pune" := by
  refine ⟨rfl, rfl, rfl, by decide⟩

/-- C2 (amended): whenever the lowercased input matches the regex
`in ([a-zA-Z\s]+)` with captured group `g`, the location component returned
by `parse_weather_input` is that captured group verbatim, with no trimming
and no title-casing applied (the `strip().title()` line of the source is
nested inside the no-match fallback branch only). -/
theorem c2_amended_regex_location (s : String) (g : List Char)
    (h : reSearchInL (toLowerL s.data) = some g) :
    (parse_weather_input s).1 = String.mk g := by
  simp [parse_weather_input, h]

theorem c2_amended_regex_location_witness :
    (parse_weather_input "in Pune").1 = String.mk "pune".data :=
  c2_amended_regex_location "in Pune" "pune".data rfl

/-- C3: for every extractor output whose sanitized location is the empty
string, `handle_weather` returns the clarification message with an empty
list of network calls, independently of the fetch behaviour, so the flow
never reaches `fetch_weather` and neither geocoding nor forecast is
attempted. -/
theorem c3_empty_location_short_circuit
    (raw_location user_input : String)
    (fetch : String → Bool → Except String String × List NetworkCall)
    (h : sanitize_location raw_location = "") :
    handle_weather (Except.ok raw_location) fetch user_input =
      Except.ok (clarification_message, []) := by
  simp [handle_weather, h]

theorem c3_empty_location_short_circuit_witness :
    handle_weather (Except.ok "weather")
      (fun _ _ => (Except.ok "never", [NetworkCall.geocode "never"]))
      "what is the weather" =
      Except.ok (clarification_message, []) :=
  c3_empty_location_short_circuit "weather" "what is the weather"
    (fun _ _ => (Except.ok "never", [NetworkCall.geocode "never"])) (by decide)

/-- C6: when the geocoding response has no `results` key or an empty results
array, `fetch_weather` returns the not-found message for the location and
issues no forecast request; otherwise only the first results entry matters,
its coordinates are the ones the forecast request is issued with, and its
name is the one rendered in the forecast message. -/
theorem c6_geocode_no_results
    (f : Int → String) (location : String) (is_tomorrow : Bool)
    (weather_outcome : Except String WeatherData)
    (first : GeoEntry) (rest : List GeoEntry)
    (m0 n0 w0 temp_max temp_min weather_code : Int)
    (cw : Option CurrentWeatherData) :
    fetch_weather f location is_tomorrow (Except.ok ⟨none⟩) weather_outcome =
      (location_not_found_message location, [NetworkCall.geocode location]) ∧
    fetch_weather f location is_tomorrow (Except.ok ⟨some []⟩) weather_outcome =
      (location_not_found_message location, [NetworkCall.geocode location]) ∧
    fetch_weather f location is_tomorrow (Except.ok ⟨some (first :: rest)⟩) weather_outcome =
      fetch_weather f location is_tomorrow (Except.ok ⟨some [first]⟩) weather_outcome ∧
    (fetch_weather f location is_tomorrow (Except.ok ⟨some (first :: rest)⟩)
        weather_outcome).2 =
      [NetworkCall.geocode location,
       NetworkCall.forecast first.latitude first.longitude is_tomorrow] ∧
    (fetch_weather f location true (Except.ok ⟨some (first :: rest)⟩)
        (Except.ok ⟨some ⟨[m0, temp_max], [n0, temp_min], [w0, weather_code]⟩, cw⟩)).1 =
      tomorrow_forecast_message first.name (f weather_code) temp_max temp_min := by
  refine ⟨rfl, rfl, rfl, ?_, rfl⟩
  rcases weather_outcome with e | w
  · rfl
  · rcases w with ⟨d, cwo⟩
    cases is_tomorrow
    · cases cwo <;> rfl
    · rcases d with _ | d
      · rfl
      · rcases hd : daily_index1 d with _ | ⟨⟨wc, mx, mn⟩⟩
        · simp [fetch_weather, hd]
        · simp [fetch_weather, hd]

/-- C9: in the current-conditions message of `fetch_weather` the temperature
is classified as "hot" strictly above 30, "cold" strictly below 15 and
"moderate" otherwise, and the message follows the current-weather template. -/
theorem c9_temperature_classification
    (f : Int → String) (location : String) (latitude longitude : Rat)
    (location_name : String) (rest : List GeoEntry)
    (temperature windspeed weather_code : Int) (daily : Option DailyData) :
    (temperature > 30 →
      (fetch_weather f location false
        (Except.ok ⟨some (⟨latitude, longitude, location_name⟩ :: rest)⟩)
        (Except.ok ⟨daily, some ⟨temperature, windspeed, some weather_code⟩⟩)).1 =
      current_weather_message location_name (f weather_code) temperature "hot" windspeed) ∧
    (temperature < 15 →
      (fetch_weather f location false
        (Except.ok ⟨some (⟨latitude, longitude, location_name⟩ :: rest)⟩)
        (Except.ok ⟨daily, some ⟨temperature, windspeed, some weather_code⟩⟩)).1 =
      current_weather_message location_name (f weather_code) temperature "cold" windspeed) ∧
    (temperature ≤ 30 → 15 ≤ temperature →
      (fetch_weather f location false
        (Except.ok ⟨some (⟨latitude, longitude, location_name⟩ :: rest)⟩)
        (Except.ok ⟨daily, some ⟨temperature, windspeed, some weather_code⟩⟩)).1 =
      current_weather_message location_name (f weather_code) temperature "moderate" windspeed) := by
  have hred : (fetch_weather f location false
      (Except.ok ⟨some (⟨latitude, longitude, location_name⟩ :: rest)⟩)
      (Except.ok ⟨daily, some ⟨temperature, windspeed, some weather_code⟩⟩)).1 =
      current_weather_message location_name (f weather_code) temperature
        (if temperature > 30 then "hot"
         else if temperature < 15 then "cold" else "moderate") windspeed := rfl
  refine ⟨?_, ?_, ?_⟩
  · intro h
    rw [hred, if_pos h]
  · intro h
    rw [hred, if_neg (by omega), if_pos h]
  · intro h1 h2
    rw [hred, if_neg (by omega), if_neg (by omega)]

theorem c9_temperature_classification_witness :
    ((32 : Int) > 30) ∧
    (fetch_weather (fun _ => "Clear sky") "Pune" false
      (Except.ok ⟨some [⟨18.5, 73.8, "Pune"⟩]⟩)
      (Except.ok ⟨none, some ⟨32, 5, some 0⟩⟩)).1 =
    current_weather_message "Pune" "Clear sky" 32 "hot" 5 :=
  ⟨by decide,
   (c9_temperature_classification (fun _ => "Clear sky") "Pune" 18.5 73.8 "Pune" []
      32 5 0 none).1 (by decide)⟩

/-- C10: both rendered condition descriptions are produced by the
`weather_description_fetcher` parameter, which embeds the function imported
from `modules.utils` (inside the method bodies that bare name resolves to
the module-level import, since Python method name lookup skips the class
scope), for every such external function f; hence the in-class static method
`WeatherModule.weather_description_fetcher` is never invoked on any
execution path of `fetch_weather` or `handle_weather` and does not determine
any rendered description. -/
theorem c10_description_from_import
    (f : Int → String) (location location_name : String)
    (latitude longitude : Rat) (rest : List GeoEntry)
    (m0 n0 w0 temp_max temp_min weather_code : Int)
    (cw : Option CurrentWeatherData)
    (temperature windspeed code2 : Int) (daily : Option DailyData) :
    (fetch_weather f location true
      (Except.ok ⟨some (⟨latitude, longitude, location_name⟩ :: rest)⟩)
      (Except.ok ⟨some ⟨[m0, temp_max], [n0, temp_min], [w0, weather_code]⟩, cw⟩)).1 =
      tomorrow_forecast_message location_name (f weather_code) temp_max temp_min ∧
    (fetch_weather f location false
      (Except.ok ⟨some (⟨latitude, longitude, location_name⟩ :: rest)⟩)
      (Except.ok ⟨daily, some ⟨temperature, windspeed, some code2⟩⟩)).1 =
      current_weather_message location_name (f code2) temperature
        (if temperature > 30 then "hot"
         else if temperature < 15 then "cold" else "moderate") windspeed :=
  ⟨rfl, rfl⟩
